import Mathlib

/-!
Shallow embedding of the core of the Money-and-Product-Solutions GitHub
activity pipeline: the paginated extraction and normalization code in
`fetch_github_project_items.py` and the metrics engine in `dashboard.py`.

Timestamps are modelled as integer seconds (timezone-naive).  Python
`timedelta.days` (= pandas `.dt.days`) is floor division by 86400, which is
`Int.fdiv`.  Calendar-date comparison (`.dt.date`) is modelled by comparing
floor-day numbers.
-/

namespace MPS

def secondsPerDay : Int := 86400

/-- Calendar date of a timestamp, as a floor day number (models `.dt.date`). -/
def dateOf (t : Int) : Int := t.fdiv secondsPerDay

/-- Whole days elapsed from `t` to `now` (models `(now - t).dt.days`,
which floors like Python `timedelta.days`). -/
def daysBetween (now t : Int) : Int := (now - t).fdiv secondsPerDay

/-- One single-select field value node as returned inside `fieldValues.nodes`:
`field` is the (optional) name of the field it belongs to, `name` is the
(optional) selected value.  Models `fv.get("field", {}).get("name", "")` and
`fv.get("name")` in `get_all_project_items`. -/
structure FieldValue where
  field : Option String
  name : Option String
deriving DecidableEq, Repr

/-- The polymorphic `content` of a project item node: an Issue, a PullRequest
(both with title/number/url/assignees/labels/timestamps) or a DraftIssue
(title and timestamps only), per the GraphQL query fragments. -/
inductive Content where
  | issue (title : String) (number : Int) (url : String)
      (assignees : List String) (labels : List String)
      (createdAt updatedAt : Int)
  | pullRequest (title : String) (number : Int) (url : String)
      (assignees : List String) (labels : List String)
      (createdAt updatedAt : Int)
  | draft (title : String) (createdAt updatedAt : Int)
deriving DecidableEq, Repr

/-- One raw project item node.  `content` is `none` when the API returns
`content: null`; each `fieldValues` entry is `none` when the union fragment
did not match (an empty dict, falsy in the Python loop). -/
structure RawItemNode where
  id : String
  createdAt : Int
  updatedAt : Int
  content : Option Content
  fieldValues : List (Option FieldValue)
deriving DecidableEq, Repr

/-- One page of the paginated items query. -/
structure RawPage where
  nodes : List RawItemNode
  hasNextPage : Bool
  endCursor : Option String
deriving DecidableEq, Repr

/-- The flat record appended to `items` for each node, and the row schema of
the CSV the dashboard consumes.  `assignees` and `labels` are the comma-joined
wire strings; `status` is `none` when no status field value matched. -/
structure NormalizedRecord where
  title : String
  number : Option Int
  url : Option String
  assignees : String
  labels : String
  status : Option String
  created_at : Int
  updated_at : Int
deriving DecidableEq, Repr

/-- Comma-join, as `", ".join(...)` does. -/
def joinComma (xs : List String) : String := String.intercalate ", " xs

/-- Python `str.lower()` (ASCII case folding suffices for the field names in
play). -/
def lowerStr (s : String) : String := String.mk (s.toList.map Char.toLower)

/-- Python `str.strip()` on a character list: drop whitespace from both
ends. -/
def trimChars (l : List Char) : List Char :=
  ((l.dropWhile Char.isWhitespace).reverse.dropWhile Char.isWhitespace).reverse

/-- Python `str.split(",")` on a character list: cut at every comma, keeping
empty pieces. -/
def splitCommaAux (acc : List Char) : List Char → List (List Char)
  | [] => [acc.reverse]
  | c :: cs =>
    if c = ',' then acc.reverse :: splitCommaAux [] cs
    else splitCommaAux (c :: acc) cs

/-- Status extraction loop of `get_all_project_items`: scan every field value
in order; whenever a non-empty node's field name lowercases to "status",
overwrite the running status with that node's value.  A later match wins. -/
def extractStatus (fvs : List (Option FieldValue)) : Option String :=
  fvs.foldl
    (fun st e =>
      match e with
      | none => st
      | some fv => if lowerStr (fv.field.getD "") = "status" then fv.name else st)
    none

/-- Does this field-value entry match the status field (case-insensitively)? -/
def isStatusEntry (e : Option FieldValue) : Bool :=
  match e with
  | none => false
  | some fv => lowerStr (fv.field.getD "") = "status"

/-- The status value carried by a matching entry, `none` for a non-match
(used to characterise `extractStatus` as a last-match-wins scan). -/
def statusValueOf (e : Option FieldValue) : Option (Option String) :=
  match e with
  | none => none
  | some fv => if lowerStr (fv.field.getD "") = "status" then some fv.name else none

/-- Item normalizer: the per-node body of `get_all_project_items`.
`content == null` becomes the empty dict, so every `content.get` falls back to
its default and the membership tests for `assignees`/`labels` fail; a
DraftIssue lacks number/url/assignees/labels so those also default; the
timestamps come from the content when present, else from the container node. -/
def normalize (node : RawItemNode) : NormalizedRecord :=
  let st := extractStatus node.fieldValues
  match node.content with
  | none =>
      { title := "(No title)", number := none, url := none,
        assignees := "", labels := "", status := st,
        created_at := node.createdAt, updated_at := node.updatedAt }
  | some (.draft t c u) =>
      { title := t, number := none, url := none,
        assignees := "", labels := "", status := st,
        created_at := c, updated_at := u }
  | some (.issue t n u asg ls c up) =>
      { title := t, number := some n, url := some u,
        assignees := joinComma asg, labels := joinComma ls, status := st,
        created_at := c, updated_at := up }
  | some (.pullRequest t n u asg ls c up) =>
      { title := t, number := some n, url := some u,
        assignees := joinComma asg, labels := joinComma ls, status := st,
        created_at := c, updated_at := up }

/-!
Paged query client and snapshot assembler (`run_query`,
`get_all_project_items`).  The transport is modelled as the finite sequence of
HTTP responses the endpoint returns to the successive page requests.
-/

/-- One HTTP response to a page request: a transport status code and, when the
request succeeded, the page payload. -/
structure HttpResponse where
  statusCode : Nat
  page : RawPage
deriving Repr

/-- Transport check of `run_query`: raise unless the status code is 200. -/
def run_query (r : HttpResponse) : Except String RawPage :=
  if r.statusCode ≠ 200 then
    .error ("Query failed: " ++ toString r.statusCode)
  else
    .ok r.page

/-- Snapshot assembly loop of `get_all_project_items`: fetch a page, normalize
its nodes in order, append, and continue while `hasNextPage`; any `run_query`
failure propagates and discards the accumulated list.  Running out of
responses while more pages are expected is a (transport) error. -/
def get_all_project_items : List HttpResponse → Except String (List NormalizedRecord)
  | [] => .error "Query failed: no response"
  | r :: rest =>
    match run_query r with
    | .error e => .error e
    | .ok p =>
      let recs := p.nodes.map normalize
      if p.hasNextPage then
        (get_all_project_items rest).map (fun tl => recs ++ tl)
      else
        .ok recs

/-!
Metrics engine (`dashboard.py`).  The snapshot is a list of
`NormalizedRecord`; `sd`/`ed` are the inclusive creation-date filter bounds
as day numbers (`st.date_input`); `now` is the single wall-clock timestamp
captured at line 122.
-/

/-- Dashboard `done_statuses` list. -/
def doneStatuses : List String := ["Done", "Closed"]

/-- Membership test `status in done_statuses` / `isin(done_statuses)`:
a missing status (NaN) is never in the list. -/
def isDone (st : Option String) : Bool :=
  match st with
  | some s => doneStatuses.contains s
  | none => false

/-- Creation-date filter mask of line 33:
`start_date <= created_at.date <= end_date`. -/
def inDateRange (sd ed : Int) (r : NormalizedRecord) : Bool :=
  decide (sd ≤ dateOf r.created_at ∧ dateOf r.created_at ≤ ed)

/-- The date-filtered snapshot `filtered_df`. -/
def filteredDf (s : List NormalizedRecord) (sd ed : Int) : List NormalizedRecord :=
  s.filter (inDateRange sd ed)

/-- Completed subset (line 45): rows of the *filtered* frame whose status is
in the done set. -/
def completedItems (s : List NormalizedRecord) (sd ed : Int) : List NormalizedRecord :=
  (filteredDf s sd ed).filter (fun r => isDone r.status)

/-- Completion rate (line 49): `len(completed)/total*100` when the filtered
total is positive, else 0. -/
def completionRate (s : List NormalizedRecord) (sd ed : Int) : ℚ :=
  let total := (filteredDf s sd ed).length
  if total > 0 then
    ((completedItems s sd ed).length : ℚ) / (total : ℚ) * 100
  else 0

/-- Whole-day completion time of one record (line 56):
`(updated_at - created_at).dt.days`, floored like `timedelta.days`. -/
def completionDays (r : NormalizedRecord) : Int :=
  (r.updated_at - r.created_at).fdiv secondsPerDay

/-- Mean cycle time (lines 54-58): mean of `completion_days` over the
completed subset; `none` ("no data") when that subset is empty. -/
def avgCompletion (s : List NormalizedRecord) (sd ed : Int) : Option ℚ :=
  let c := completedItems s sd ed
  if c.isEmpty then none
  else some ((((c.map completionDays).sum : Int) : ℚ) / (c.length : ℚ))

/-- Closed subset for the monthly trend (line 67): same done-status filter on
the filtered frame. -/
def closedDf (s : List NormalizedRecord) (sd ed : Int) : List NormalizedRecord :=
  (filteredDf s sd ed).filter (fun r => isDone r.status)

/-- Comma-split, strip each token, drop empties:
`[a.strip() for a in x.split(",") if a.strip()]`. -/
def splitTokens (s : String) : List String :=
  (((splitCommaAux [] s.toList).map trimChars).filter
    (fun t => !t.isEmpty)).map String.mk

/-- Status bucket of the workload matrix (line 87). -/
def statusBucket (r : NormalizedRecord) : String :=
  if isDone r.status then "Closed" else "Open"

/-- Rows of `assignee_status` (lines 81-88): one `(assignee, bucket)` pair per
exploded assignee token of each filtered row, in row order. -/
def assigneeStatusRows (s : List NormalizedRecord) (sd ed : Int) : List (String × String) :=
  (filteredDf s sd ed).flatMap
    (fun r => (splitTokens r.assignees).map (fun a => (a, statusBucket r)))

/-- All exploded label tokens of the filtered frame, in row order
(lines 99-101). -/
def allLabels (s : List NormalizedRecord) (sd ed : Int) : List String :=
  (filteredDf s sd ed).flatMap (fun r => splitTokens r.labels)

/-- First occurrence of each element, in first-encounter order (the key order
of a Python `Counter`/dict built by iteration). -/
def firstDedupAux (seen : List String) : List String → List String
  | [] => []
  | x :: xs =>
    if x ∈ seen then firstDedupAux seen xs
    else x :: firstDedupAux (x :: seen) xs

/-- The `Counter(all_labels)` mapping as an association list: distinct labels
in first-encounter order, each with its total count. -/
def counterList (toks : List String) : List (String × Nat) :=
  (firstDedupAux [] toks).map (fun lab => (lab, toks.count lab))

/-- Comparison used to model `sort_values`: ascending by count. -/
def countLE (a b : String × Nat) : Prop := a.2 ≤ b.2

instance : DecidableRel countLE := fun a b => inferInstanceAs (Decidable (a.2 ≤ b.2))

instance : IsTotal (String × Nat) countLE := ⟨fun a b => Nat.le_total a.2 b.2⟩

instance : IsTrans (String × Nat) countLE := ⟨fun _ _ _ h h2 => Nat.le_trans h h2⟩

/-- Contract of the label ranking at line 103,
`pd.Series(Counter(all_labels)).sort_values(ascending=False)`: pandas runs a
numpy argsort on the counts and reverses the indexer, so the output is some
permutation of the counter series that is non-increasing in count.  The
relative order of equal counts depends on the argsort kernel (numpy quicksort
is unstable above its 16-element insertion-sort base case), so only this
contract is determined by the program for every input size. -/
def isDescendingRanking (input output : List (String × Nat)) : Prop :=
  output.Perm input ∧ output.Pairwise (fun a b => b.2 ≤ a.2)

instance (input output : List (String × Nat)) :
    Decidable (isDescendingRanking input output) :=
  inferInstanceAs (Decidable (_ ∧ _))

/-- One concrete realisation of the line-103 ranking: ascending insertion
sort by count, then reversal of the order.  Inside numpy's insertion-sort
base case (at most 16 counter entries) the argsort kernel IS a stable
insertion sort, so on such inputs this is exactly the program's output; it
is used below to evaluate small concrete inputs. -/
def labelCountsSorted (s : List NormalizedRecord) (sd ed : Int) : List (String × Nat) :=
  (List.insertionSort countLE (counterList (allLabels s sd ed))).reverse

/-- Stale items (line 123): filtered rows that are not done and were last
updated more than 30 days before `now`. -/
def staleItems (s : List NormalizedRecord) (sd ed : Int) (now : Int) :
    List NormalizedRecord :=
  (filteredDf s sd ed).filter
    (fun r => !isDone r.status && decide (daysBetween now r.updated_at > 30))

/-- Recently closed items (line 131): rows of `completed_items` updated at
most 30 days before `now`. -/
def recentlyClosed (s : List NormalizedRecord) (sd ed : Int) (now : Int) :
    List NormalizedRecord :=
  (completedItems s sd ed).filter
    (fun r => decide (daysBetween now r.updated_at ≤ 30))

/-- Modelled from the spec: the recently-closed list as §4.4 of the spec
describes it, drawn from the completed subset of the FULL snapshot, not
restricted by the creation-date filter ("computed from the unfiltered-by-date
completed subset").  Used only to compare the spec's wording with the code. -/
def recentlyClosedSpec (s : List NormalizedRecord) (now : Int) :
    List NormalizedRecord :=
  (s.filter (fun r => isDone r.status)).filter
    (fun r => decide (daysBetween now r.updated_at ≤ 30))

/-- Multi-assignee flagged rows (line 139): more than one non-empty token. -/
def multiAssignees (s : List NormalizedRecord) (sd ed : Int) : List NormalizedRecord :=
  (filteredDf s sd ed).filter (fun r => (splitTokens r.assignees).length > 1)

/-!
Concrete inputs used to instantiate the theorems below.
-/

/-- A fixed wall-clock instant: 100 seconds into day 200. -/
def now0 : Int := 86400 * 200 + 100

/-- A record completed on day 200 (within 30 days of `now0`) but created on
day 200, outside the date-filter window `[0, 100]`. -/
def rOutOfRange : NormalizedRecord :=
  { title := "late", number := none, url := none, assignees := "", labels := "",
    status := some "Done", created_at := 86400 * 200, updated_at := 86400 * 200 }

/-- A record with two equally frequent labels, created inside day window
`[0, 100]`. -/
def rTwoLabels : NormalizedRecord :=
  { title := "t", number := none, url := none, assignees := "", labels := "a, b",
    status := none, created_at := 0, updated_at := 0 }

/-- An open record last updated on day 160: stale at `now0`. -/
def rStaleW : NormalizedRecord :=
  { title := "old", number := none, url := none, assignees := "", labels := "",
    status := none, created_at := 0, updated_at := 86400 * 160 }

/-- A record whose status is the lowercase string "done". -/
def rLowerDone : NormalizedRecord :=
  { title := "lc", number := none, url := none, assignees := "alice, bob",
    labels := "x", status := some "done", created_at := 0, updated_at := 0 }

/-- A completed record updated one day before it was created. -/
def rNegCycle : NormalizedRecord :=
  { title := "neg", number := none, url := none, assignees := "", labels := "",
    status := some "Done", created_at := 86400, updated_at := 0 }

/-- An open record created on day 0. -/
def rOpenW : NormalizedRecord :=
  { title := "open", number := none, url := none, assignees := "", labels := "",
    status := none, created_at := 0, updated_at := 0 }

/-- A completed record created on day 0. -/
def rDoneW : NormalizedRecord :=
  { title := "done", number := none, url := none, assignees := "", labels := "",
    status := some "Done", created_at := 0, updated_at := 0 }

/-- A raw node with `content = null`. -/
def nodeNull : RawItemNode :=
  { id := "n1", createdAt := 5, updatedAt := 9, content := none, fieldValues := [] }

/-- A raw node wrapping a draft item with its own timestamps. -/
def nodeDraft : RawItemNode :=
  { id := "n2", createdAt := 5, updatedAt := 9,
    content := some (.draft "X" 1 2),
    fieldValues := [some { field := some "Status", name := some "Done" }] }

/-- A raw node used to fill the pagination pages. -/
def nodeFill : RawItemNode :=
  { id := "n3", createdAt := 1, updatedAt := 2, content := none, fieldValues := [] }

/-- Page 1 of the 3-page pagination example: 100 nodes, more to come. -/
def pg1 : RawPage := { nodes := List.replicate 100 nodeFill, hasNextPage := true, endCursor := some "c1" }

/-- Page 2 of the 3-page pagination example: 100 nodes, more to come. -/
def pg2 : RawPage := { nodes := List.replicate 100 nodeFill, hasNextPage := true, endCursor := some "c2" }

/-- Page 3 of the 3-page pagination example: 37 nodes, final page. -/
def pg3 : RawPage := { nodes := List.replicate 37 nodeFill, hasNextPage := false, endCursor := none }

/-- A successful response carrying a non-final page. -/
def respGood : HttpResponse := { statusCode := 200, page := pg1 }

/-- A failed response (HTTP 500). -/
def respBad : HttpResponse := { statusCode := 500, page := pg3 }

/-!
Theorems.
-/

/-- C3: the extracted status is the value carried by the last `fieldValues`
entry whose field name case-insensitively equals "status" (a later match
overwrites an earlier one), and is null when no entry matches. -/
theorem c3_status_last_match_wins (fvs : List (Option FieldValue)) :
    extractStatus fvs = ((fvs.filterMap statusValueOf).getLast?).join ∧
    ((∀ e ∈ fvs, isStatusEntry e = false) → extractStatus fvs = none) := by
  have hstep : ∀ (st : Option String) (e : Option FieldValue),
      (match e with
        | none => st
        | some fv => if lowerStr (fv.field.getD "") = "status" then fv.name else st)
        = (statusValueOf e).getD st := by
    intro st e
    cases e with
    | none => rfl
    | some fv =>
      by_cases h : lowerStr (fv.field.getD "") = "status" <;>
        simp [statusValueOf, h]
  have main : ∀ (l : List (Option FieldValue)) (st : Option String),
      l.foldl
        (fun st e =>
          match e with
          | none => st
          | some fv => if lowerStr (fv.field.getD "") = "status" then fv.name else st)
        st = ((l.filterMap statusValueOf).getLast?).getD st := by
    intro l
    induction l with
    | nil => intro st; rfl
    | cons e rest ih =>
      intro st
      rw [List.foldl_cons, hstep]
      cases he : statusValueOf e with
      | none => simp [List.filterMap_cons, he, ih]
      | some v => simp [List.filterMap_cons, he, ih, List.getLast?_cons]
  have h1 : extractStatus fvs = ((fvs.filterMap statusValueOf).getLast?).join := by
    rw [extractStatus, main fvs none]
    cases (fvs.filterMap statusValueOf).getLast? <;> rfl
  refine ⟨h1, fun hall => ?_⟩
  have hnil : fvs.filterMap statusValueOf = [] := by
    rw [List.filterMap_eq_nil_iff]
    intro e he
    have := hall e he
    cases e with
    | none => rfl
    | some fv =>
      simp only [isStatusEntry, decide_eq_false_iff_not] at this
      simp [statusValueOf, this]
  rw [h1, hnil]
  rfl

/-- C3 witness: with a "Status" entry followed by a "STATUS" entry, the later
one wins; with no matching entry the status is null. -/
theorem c3_status_last_match_wins_witness :
    extractStatus
        [some { field := some "Status", name := some "Done" },
         some { field := some "STATUS", name := some "Doing" }] = some "Doing" ∧
    extractStatus [some { field := some "Points", name := some "5" }, none] = none := by
  constructor
  · exact (c3_status_last_match_wins
      [some { field := some "Status", name := some "Done" },
       some { field := some "STATUS", name := some "Doing" }]).1.trans (by decide)
  · exact (c3_status_last_match_wins
      [some { field := some "Points", name := some "5" }, none]).2 (by decide)

/-- C4: a node with null content or draft content normalizes without error:
title defaults to "(No title)" only when no content title exists, number and
url are null, assignee and label strings are empty, and the timestamps come
from the content when it has them, else from the container node. -/
theorem c4_normalize_null_and_draft (node : RawItemNode) :
    (node.content = none →
      normalize node =
        { title := "(No title)", number := none, url := none,
          assignees := "", labels := "",
          status := extractStatus node.fieldValues,
          created_at := node.createdAt, updated_at := node.updatedAt }) ∧
    (∀ t c u, node.content = some (.draft t c u) →
      normalize node =
        { title := t, number := none, url := none,
          assignees := "", labels := "",
          status := extractStatus node.fieldValues,
          created_at := c, updated_at := u }) := by
  constructor
  · intro h
    simp [normalize, h]
  · intro t c u h
    simp [normalize, h]

/-- C4 witness: the two concrete nodes `nodeNull` and `nodeDraft` normalize to
the defaulted records, with container timestamps for the former and content
timestamps for the latter. -/
theorem c4_normalize_null_and_draft_witness :
    normalize nodeNull =
      { title := "(No title)", number := none, url := none,
        assignees := "", labels := "", status := extractStatus nodeNull.fieldValues,
        created_at := 5, updated_at := 9 } ∧
    normalize nodeDraft =
      { title := "X", number := none, url := none,
        assignees := "", labels := "", status := extractStatus nodeDraft.fieldValues,
        created_at := 1, updated_at := 2 } := by
  constructor
  · exact (c4_normalize_null_and_draft nodeNull).1 rfl
  · exact (c4_normalize_null_and_draft nodeDraft).2 "X" 1 2 rfl

/-- C5: the completion rate is `completed / total * 100` over the
date-filtered snapshot, and is exactly 0 when the filtered total is 0. -/
theorem c5_completion_rate_policy (s : List NormalizedRecord) (sd ed : Int) :
    (filteredDf s sd ed = [] → completionRate s sd ed = 0) ∧
    (filteredDf s sd ed ≠ [] →
      completionRate s sd ed =
        ((completedItems s sd ed).length : ℚ) / ((filteredDf s sd ed).length : ℚ) * 100) := by
  constructor
  · intro h
    simp [completionRate, h]
  · intro h
    have hpos : 0 < (filteredDf s sd ed).length := List.length_pos.mpr h
    simp [completionRate, hpos]

/-- C5 witness: the empty snapshot has rate 0 (not an error), and a two-item
snapshot with one completed item has rate 50. -/
theorem c5_completion_rate_policy_witness :
    completionRate [] 0 100 = 0 ∧ completionRate [rDoneW, rOpenW] 0 100 = 50 := by
  constructor
  · exact (c5_completion_rate_policy [] 0 100).1 rfl
  · have h := (c5_completion_rate_policy [rDoneW, rOpenW] 0 100).2 (by decide)
    rw [h]
    norm_num [completedItems, filteredDf, rDoneW, rOpenW, inDateRange, dateOf,
      secondsPerDay, isDone, doneStatuses]

/-- C7: no record appears in both the stale list and the recently-closed list
of the same computation pass: stale rows have a status outside the done set,
recently-closed rows a status inside it. -/
theorem c7_stale_recent_disjoint (s : List NormalizedRecord) (sd ed : Int)
    (now : Int) (r : NormalizedRecord) (h : r ∈ staleItems s sd ed now) :
    r ∉ recentlyClosed s sd ed now := by
  intro h2
  have hopen : isDone r.status = false := by
    have hp := (List.mem_filter.mp h).2
    rw [Bool.and_eq_true] at hp
    simpa using hp.1
  have hdone : isDone r.status = true :=
    (List.mem_filter.mp (List.mem_filter.mp h2).1).2
  rw [hopen] at hdone
  exact Bool.false_ne_true hdone

/-- C7 witness: the concrete stale record `rStaleW` is in the stale list of
its singleton snapshot and therefore not in the recently-closed list. -/
theorem c7_stale_recent_disjoint_witness :
    rStaleW ∉ recentlyClosed [rStaleW] 0 100 now0 :=
  c7_stale_recent_disjoint [rStaleW] 0 100 now0 rStaleW (by decide)

/-- C9: done-set membership is exact and case-sensitive: a record whose status
is not literally "Done" or "Closed" (lowercase variants and missing status
included) is excluded from the completed subset, the closed-trend subset and
the recently-closed list, and its workload-matrix rows are bucketed "Open" --
while status field-NAME matching during extraction stays case-insensitive. -/
theorem c9_done_set_case_sensitive (r : NormalizedRecord)
    (h1 : r.status ≠ some "Done") (h2 : r.status ≠ some "Closed") :
    isDone r.status = false ∧
    (∀ s sd ed, r ∉ completedItems s sd ed) ∧
    (∀ s sd ed, r ∉ closedDf s sd ed) ∧
    (∀ s sd ed now, r ∉ recentlyClosed s sd ed now) ∧
    statusBucket r = "Open" ∧
    (∀ sd ed, inDateRange sd ed r = true →
      assigneeStatusRows [r] sd ed =
        (splitTokens r.assignees).map (fun a => (a, "Open"))) ∧
    (∀ fn v, lowerStr fn = "status" →
      extractStatus [some { field := some fn, name := some v }] = some v) := by
  have hfd : isDone r.status = false := by
    cases hs : r.status with
    | none => rfl
    | some v =>
      rw [hs] at h1 h2
      simp only [ne_eq, Option.some.injEq] at h1 h2
      simp [isDone, doneStatuses, h1, h2]
  refine ⟨hfd, ?_, ?_, ?_, ?_, ?_, ?_⟩
  · intro s sd ed hmem
    have := (List.mem_filter.mp hmem).2
    rw [hfd] at this
    exact Bool.false_ne_true this
  · intro s sd ed hmem
    have := (List.mem_filter.mp hmem).2
    rw [hfd] at this
    exact Bool.false_ne_true this
  · intro s sd ed now hmem
    have := (List.mem_filter.mp (List.mem_filter.mp hmem).1).2
    rw [hfd] at this
    exact Bool.false_ne_true this
  · simp [statusBucket, hfd]
  · intro sd ed hin
    simp [assigneeStatusRows, filteredDf, hin, statusBucket, hfd]
  · intro fn v hfn
    simp [extractStatus, hfn]

/-- C9 witness: the record `rLowerDone` with status "done" is excluded from
the completed subset of its own snapshot, bucketed "Open" for both of its
assignees, while a field literally named "STATUS" still matches during
extraction. -/
theorem c9_done_set_case_sensitive_witness :
    isDone rLowerDone.status = false ∧
    rLowerDone ∉ completedItems [rLowerDone] 0 100 ∧
    statusBucket rLowerDone = "Open" ∧
    assigneeStatusRows [rLowerDone] 0 100 = [("alice", "Open"), ("bob", "Open")] ∧
    extractStatus [some { field := some "STATUS", name := some "Doing" }] = some "Doing" := by
  have h := c9_done_set_case_sensitive rLowerDone (by decide) (by decide)
  refine ⟨h.1, h.2.1 [rLowerDone] 0 100, h.2.2.2.2.1, ?_, ?_⟩
  · rw [h.2.2.2.2.2.1 0 100 (by decide)]
    decide
  · exact h.2.2.2.2.2.2 "STATUS" "Doing" (by decide)

/-- C10: mean cycle time does not require `updated_at >= created_at`: a
completed, in-range record updated strictly before creation has a negative
whole-day value, and on its singleton snapshot the mean is exactly that
negative value -- not an error, not `none`, not clamped to zero. -/
theorem c10_negative_cycle_time_included (r : NormalizedRecord) (sd ed : Int)
    (hdone : isDone r.status = true) (hin : inDateRange sd ed r = true)
    (hlt : r.updated_at < r.created_at) :
    completionDays r < 0 ∧
    avgCompletion [r] sd ed = some ((completionDays r : ℚ)) := by
  have hneg : completionDays r < 0 := by
    rw [completionDays, secondsPerDay, Int.fdiv_eq_ediv _ (by norm_num)]
    omega
  refine ⟨hneg, ?_⟩
  have hc : completedItems [r] sd ed = [r] := by
    simp [completedItems, filteredDf, hin, hdone]
  simp [avgCompletion, hc]

/-- C10 witness: `rNegCycle` (updated one day before creation) contributes
-1 days and the mean over its singleton snapshot is exactly -1. -/
theorem c10_negative_cycle_time_included_witness :
    completionDays rNegCycle < 0 ∧
    avgCompletion [rNegCycle] 0 100 = some ((completionDays rNegCycle : ℚ)) :=
  c10_negative_cycle_time_included rNegCycle 0 100 (by decide) (by decide) (by decide)

/-- C1 counterexample: `rOutOfRange` has status "Done" and was updated within
30 days of `now0`, so the spec's unfiltered-by-date reading puts it in the
recently-closed list; the code's list, built from the date-filtered completed
subset with window `[0, 100]`, is empty. -/
theorem c1_counterexample :
    recentlyClosedSpec [rOutOfRange] now0 = [rOutOfRange] ∧
    recentlyClosed [rOutOfRange] 0 100 now0 = [] ∧
    recentlyClosed [rOutOfRange] 0 100 now0 ≠ recentlyClosedSpec [rOutOfRange] now0 := by
  decide

/-- C1 amended: the recently-closed list contains exactly the records of the
snapshot that pass the creation-date filter, have a done status, and were
updated at most 30 days before `now` -- i.e. it is drawn from the
date-FILTERED completed subset. -/
theorem c1_recently_closed_date_filtered (s : List NormalizedRecord)
    (sd ed now : Int) :
    recentlyClosed s sd ed now =
      s.filter (fun r =>
        inDateRange sd ed r &&
        (isDone r.status && decide (daysBetween now r.updated_at ≤ 30))) := by
  rw [recentlyClosed, completedItems, filteredDf, List.filter_filter,
    List.filter_filter]
  apply List.filter_congr
  intro r _
  cases inDateRange sd ed r <;> cases isDone r.status <;>
    cases decide (daysBetween now r.updated_at ≤ 30) <;> rfl

/-- C6: when every page before the last signals a continuation and the last
does not, assembly terminates with the concatenation, in page order and
within-page order, of the normalized records of every page. -/
theorem c6_assembly_concat (pages : List RawPage) (pLast : RawPage)
    (hmid : ∀ p ∈ pages, p.hasNextPage = true)
    (hlast : pLast.hasNextPage = false) :
    get_all_project_items
        ((pages ++ [pLast]).map (fun p => { statusCode := 200, page := p })) =
      .ok ((pages ++ [pLast]).flatMap (fun p => p.nodes.map normalize)) := by
  induction pages with
  | nil =>
    simp [get_all_project_items, run_query, hlast]
  | cons p ps ih =>
    have hp : p.hasNextPage = true := hmid p (List.mem_cons_self p ps)
    have ih2 := ih (fun q hq => hmid q (List.mem_cons_of_mem p hq))
    simp only [List.map_append, List.map_cons, List.map_nil] at ih2 ⊢
    simp [get_all_project_items, run_query, hp, ih2, Except.map]

/-- C6 witness: a 3-page sequence of sizes 100, 100, 37 assembles into the
page-ordered concatenation, a snapshot of exactly 237 records. -/
theorem c6_assembly_concat_witness :
    get_all_project_items
        (([pg1, pg2] ++ [pg3]).map (fun p => { statusCode := 200, page := p })) =
      .ok (([pg1, pg2] ++ [pg3]).flatMap (fun p => p.nodes.map normalize)) ∧
    (([pg1, pg2] ++ [pg3]).flatMap (fun p => p.nodes.map normalize)).length = 237 := by
  constructor
  · exact c6_assembly_concat [pg1, pg2] pg3
      (by intro p hp; fin_cases hp <;> rfl) rfl
  · simp only [List.cons_append, List.nil_append, List.flatMap_cons,
      List.flatMap_nil, List.append_nil, List.length_append, List.length_map,
      List.length_replicate, pg1, pg2, pg3]

/-- C8: a non-success transport status on any page request makes the query
raise, the error propagates out of assembly, and no partial snapshot is
returned: the overall result is that error and is `.ok` for no record list. -/
theorem c8_transport_error_aborts (good : List HttpResponse)
    (bad : HttpResponse) (rest : List HttpResponse)
    (hgood : ∀ r ∈ good, r.statusCode = 200 ∧ r.page.hasNextPage = true)
    (hbad : bad.statusCode ≠ 200) :
    get_all_project_items (good ++ bad :: rest) =
      .error ("Query failed: " ++ toString bad.statusCode) ∧
    ∀ recs, get_all_project_items (good ++ bad :: rest) ≠ .ok recs := by
  have hmain : ∀ g : List HttpResponse,
      (∀ r ∈ g, r.statusCode = 200 ∧ r.page.hasNextPage = true) →
      get_all_project_items (g ++ bad :: rest) =
        .error ("Query failed: " ++ toString bad.statusCode) := by
    intro g
    induction g with
    | nil =>
      intro _
      simp [get_all_project_items, run_query, hbad]
    | cons r rs ih =>
      intro hg
      have h200 := (hg r (List.mem_cons_self r rs)).1
      have hnext := (hg r (List.mem_cons_self r rs)).2
      have ih2 := ih (fun q hq => hg q (List.mem_cons_of_mem r hq))
      simp [get_all_project_items, run_query, h200, hnext, ih2, Except.map]
  refine ⟨hmain good hgood, fun recs hok => ?_⟩
  rw [hmain good hgood] at hok
  exact Except.noConfusion hok

/-- C8 witness: one successful page followed by an HTTP 500 response yields
the transport error and no record list. -/
theorem c8_transport_error_aborts_witness :
    get_all_project_items ([respGood] ++ respBad :: []) =
      .error ("Query failed: " ++ toString respBad.statusCode) ∧
    ∀ recs, get_all_project_items ([respGood] ++ respBad :: []) ≠ .ok recs :=
  c8_transport_error_aborts [respGood] respBad []
    (by intro r hr; fin_cases hr; exact ⟨rfl, rfl⟩) (by decide)

/-- Membership in `firstDedupAux`: an element occurs iff it occurs in the
remaining input and was not seen before. -/
theorem mem_firstDedupAux (a : String) :
    ∀ (l seen : List String), a ∈ firstDedupAux seen l ↔ a ∈ l ∧ a ∉ seen := by
  intro l
  induction l with
  | nil => intro seen; simp [firstDedupAux]
  | cons x xs ih =>
    intro seen
    by_cases hx : x ∈ seen
    · rw [firstDedupAux, if_pos hx, ih]
      constructor
      · rintro ⟨h1, h2⟩
        exact ⟨List.mem_cons_of_mem x h1, h2⟩
      · rintro ⟨h1, h2⟩
        rcases List.mem_cons.mp h1 with rfl | h1
        · exact absurd hx h2
        · exact ⟨h1, h2⟩
    · rw [firstDedupAux, if_neg hx]
      constructor
      · intro h
        rcases List.mem_cons.mp h with rfl | h
        · exact ⟨List.mem_cons_self a xs, hx⟩
        · have := (ih (x :: seen)).mp h
          refine ⟨List.mem_cons_of_mem x this.1, fun hc => this.2 (List.mem_cons_of_mem x hc)⟩
      · rintro ⟨h1, h2⟩
        rcases List.mem_cons.mp h1 with rfl | h1
        · exact List.mem_cons_self a _
        · by_cases hax : a = x
          · exact hax ▸ List.mem_cons_self x _
          · exact List.mem_cons_of_mem x
              ((ih (x :: seen)).mpr ⟨h1, fun hc => by
                rcases List.mem_cons.mp hc with h | h
                · exact hax h
                · exact h2 h⟩)

/-- Every entry of `counterList` carries the total occurrence count of its
label. -/
theorem counterList_count (toks : List String) :
    ∀ p ∈ counterList toks, p.2 = toks.count p.1 := by
  intro p hp
  rcases List.mem_map.mp hp with ⟨lab, _, rfl⟩
  rfl

/-- Every token of the input owns an entry of `counterList`. -/
theorem counterList_exists (toks : List String) (a : String) (ha : a ∈ toks) :
    (a, toks.count a) ∈ counterList toks :=
  List.mem_map.mpr ⟨a, (mem_firstDedupAux a toks []).mpr ⟨ha, by simp⟩, rfl⟩

/-- C2 counterexample: a record with labels "a, b" (both count 1), a
2-entry counter that sits inside numpy's insertion-sort base case, where the
argsort is exactly a stable insertion sort and the model is exact.  The
ranking produced by the code puts "b" -- the label encountered LAST -- first,
so equal-count labels are not ordered by first encounter. -/
theorem c2_counterexample :
    labelCountsSorted [rTwoLabels] 0 100 = [("b", 1), ("a", 1)] ∧
    labelCountsSorted [rTwoLabels] 0 100 ≠ [("a", 1), ("b", 1)] := by
  decide

/-- C2 amended: the label ranking is the multiset of trimmed, non-empty,
comma-split label tokens with their counts -- every entry carries its token's
multiplicity and every token is represented -- ordered descending by count;
the relative order of equal-count labels is kernel-dependent (and, per the
counterexample, not first-encountered order).  Stated for every output
satisfying the program-determined sort contract, of which the concrete
`labelCountsSorted` is one realisation. -/
theorem c2_label_ranking_descending_by_count (s : List NormalizedRecord)
    (sd ed : Int) (out : List (String × Nat))
    (h : isDescendingRanking (counterList (allLabels s sd ed)) out) :
    (∀ p ∈ out, p.2 = (allLabels s sd ed).count p.1) ∧
    (∀ lab ∈ allLabels s sd ed, (lab, (allLabels s sd ed).count lab) ∈ out) ∧
    List.Pairwise (fun a b : String × Nat => b.2 ≤ a.2) out ∧
    isDescendingRanking (counterList (allLabels s sd ed))
      (labelCountsSorted s sd ed) := by
  obtain ⟨hperm, hsort⟩ := h
  refine ⟨?_, ?_, hsort, ?_, ?_⟩
  · intro p hp
    exact counterList_count _ p (hperm.mem_iff.mp hp)
  · intro lab hlab
    exact hperm.mem_iff.mpr (counterList_exists _ lab hlab)
  · exact (List.reverse_perm _).trans (List.perm_insertionSort _ _)
  · exact List.pairwise_reverse.mpr (List.sorted_insertionSort countLE _)

/-- C2 witness: on the concrete snapshot with labels "a, b", the code's
ranking `[("b", 1), ("a", 1)]` satisfies the sort contract; its entry
("b", 1) carries the token count of "b", and "a" owns a ranking entry with
its token count. -/
theorem c2_label_ranking_descending_by_count_witness :
    ("b", 1).2 = (allLabels [rTwoLabels] 0 100).count ("b", 1).1 ∧
    ("a", (allLabels [rTwoLabels] 0 100).count "a")
      ∈ labelCountsSorted [rTwoLabels] 0 100 :=
  ⟨(c2_label_ranking_descending_by_count [rTwoLabels] 0 100
      (labelCountsSorted [rTwoLabels] 0 100) (by decide)).1 ("b", 1) (by decide),
   (c2_label_ranking_descending_by_count [rTwoLabels] 0 100
      (labelCountsSorted [rTwoLabels] 0 100) (by decide)).2.1 "a" (by decide)⟩

end MPS
